import Mathlib

/-!
Verification of the voice-operated ticket reservation dialog controller
(`src/app.py`).  The controller's state machine, field parsing, fuzzy
station resolution and the per-turn transition functions are embedded
shallowly: one Lean function per `process_*` function of the source, all
pure, taking the transcribed utterance (`Option String`, `none` = "no
input") and returning the updated session state together with the list of
texts passed to the notice sink (`display_text_as_voice`).

The helper modules `ticket_operations`, `stations` and `voice_recognition`
are not part of the repository's files; where their behaviour decides a
claim they are modelled from the specification (see the doc comments
starting "Modelled from the spec:").  Everything else is translated from
`src/app.py`.
-/

/-! ## String helpers (Python `in`, `str.lower`, `re` searches) -/

/-- Whether `n` is a leading segment of `h` (character lists). -/
def leadsWith : List Char → List Char → Bool
  | [], _ => true
  | _ :: _, [] => false
  | a :: as, b :: bs => a == b && leadsWith as bs

/-- Whether `n` occurs contiguously inside `h` (character lists). -/
def subAt (n : List Char) : List Char → Bool
  | [] => leadsWith n []
  | b :: bs => leadsWith n (b :: bs) || subAt n bs

/-- Python `needle in hay` on strings. -/
def containsSub (hay needle : String) : Bool :=
  subAt needle.toList hay.toList

/-- Python `str.lower()` (character-list form of `String.toLower`, kept
kernel-reducible for concrete evaluation). -/
def strLower (s : String) : String :=
  String.mk (s.toList.map Char.toLower)

/-- Python `str.upper()` (character-list form of `String.toUpper`). -/
def strUpper (s : String) : String :=
  String.mk (s.toList.map Char.toUpper)

/-- Python `kw in command.lower()`: the keyword tests of the dispatcher. -/
def hasKw (command kw : String) : Bool :=
  containsSub (strLower command) kw

/-- Python `\w`: letters, digits and the underscore (ASCII inputs). -/
def isWordChar (c : Char) : Bool :=
  c.isAlphanum || c == '_'

/-- Maximal runs of word characters, left to right (`cur` is the run being
built, reversed). -/
def wordRunsAux : List Char → List Char → List (List Char)
  | cur, [] => if cur.isEmpty then [] else [cur.reverse]
  | cur, c :: rest =>
    if isWordChar c then wordRunsAux (c :: cur) rest
    else if cur.isEmpty then wordRunsAux [] rest
    else cur.reverse :: wordRunsAux [] rest

/-- The maximal word-character runs of a string. -/
def wordRuns (s : String) : List (List Char) :=
  wordRunsAux [] s.toList

/-- Digits to a number, `int("007") = 7`. -/
def digitsToNat (cs : List Char) : Nat :=
  cs.foldl (fun a c => a * 10 + (c.toNat - 48)) 0

/-- Python `re.search(r'\b(\d+)\b', u)`: because `\b` separates word from
non-word characters and digits are word characters, the first match is the
first maximal word run made of digits only. -/
def extract_age (u : String) : Option Nat :=
  ((wordRuns u).find? (fun r => r.all Char.isDigit)).map digitsToNat

/-- Python `re.search(r'\b(\d{1,2})\b', u)`: as for `extract_age`, but the
bounded repetition cannot match inside or at the edge of a longer digit
run, so the run must also have length at most 2. -/
def extract_day (u : String) : Option Nat :=
  ((wordRuns u).find? (fun r => r.all Char.isDigit && decide (r.length ≤ 2)))
    |>.map digitsToNat

/-- A character of the ticket-id class `[A-Z0-9]`. -/
def isIdChar (c : Char) : Bool :=
  ('A' ≤ c && c ≤ 'Z') || c.isDigit

/-- Python `re.search(r'\b([A-Z0-9]{8})\b', u.upper())`: a match is a
maximal word run of the uppercased input of length exactly 8 whose
characters are all in `[A-Z0-9]` (an underscore is a word character but
outside the class, and a longer run leaves no room for the boundaries). -/
def extract_ticket_id (u : String) : Option String :=
  ((wordRuns (strUpper u)).find?
      (fun r => r.length == 8 && r.all isIdChar)).map (fun r => String.mk r)

/-- Size of `set(a) & set(b)` on characters: distinct characters of `a`
that occur in `b`. -/
def charInterCount (a b : List Char) : Nat :=
  (a.eraseDups.filter (fun c => b.contains c)).length

/-- The inline station matcher of `process_booking` / `process_modification`
(identical at its four occurrences): a station is a candidate when one
lowercased string contains the other; candidates are scored by character-set
overlap; a strictly higher score replaces the best, so the first candidate
wins ties, and a score of 0 never beats the initial empty best. -/
def resolveStation (spoken : String) (stations : List String) : Option String :=
  (stations.foldl
    (fun acc station =>
      if containsSub (strLower station) (strLower spoken)
          || containsSub (strLower spoken) (strLower station) then
        let score := charInterCount (strLower spoken).toList (strLower station).toList
        if score > acc.2 then (some station, score) else acc
      else acc)
    ((none : Option String), 0)).1

/-! ## Dates (`datetime` uses in `src/app.py`) -/

def isLeap (y : Nat) : Bool :=
  (y % 4 == 0 && y % 100 != 0) || y % 400 == 0

def daysInMonth (y m : Nat) : Nat :=
  if m == 2 then (if isLeap y then 29 else 28)
  else if m == 4 || m == 6 || m == 9 || m == 11 then 30
  else 31

/-- Whether `datetime(y, m, d)` succeeds. -/
def validDate (y m d : Nat) : Bool :=
  1 ≤ m && m ≤ 12 && 1 ≤ d && d ≤ daysInMonth y m

/-- `datetime.now() + timedelta(days=1)` on the date part. -/
def nextDay : Nat × Nat × Nat → Nat × Nat × Nat
  | (y, m, d) =>
    if d < daysInMonth y m then (y, m, d + 1)
    else if m < 12 then (y, m + 1, 1)
    else (y + 1, 1, 1)

def pad2 (n : Nat) : String :=
  if n < 10 then "0" ++ toString n else toString n

/-- `strftime("%Y-%m-%d")`. -/
def isoDate : Nat × Nat × Nat → String
  | (y, m, d) => toString y ++ "-" ++ pad2 m ++ "-" ++ pad2 d

def monthLongName (m : Nat) : String :=
  match m with
  | 1 => "January" | 2 => "February" | 3 => "March" | 4 => "April"
  | 5 => "May" | 6 => "June" | 7 => "July" | 8 => "August"
  | 9 => "September" | 10 => "October" | 11 => "November" | 12 => "December"
  | _ => ""

/-- `strftime("%B %d, %Y")`. -/
def formatLong : Nat × Nat × Nat → String
  | (y, m, d) => monthLongName m ++ " " ++ pad2 d ++ ", " ++ toString y

/-- Splitting a character list on a separator (Python `str.split`). -/
def splitSep (sep : Char) : List Char → List Char → List (List Char)
  | cur, [] => [cur.reverse]
  | cur, c :: rest =>
    if c == sep then cur.reverse :: splitSep sep [] rest
    else splitSep sep (c :: cur) rest

/-- `int` on an all-digit piece, none otherwise. -/
def natOfDigits? (cs : List Char) : Option Nat :=
  if !cs.isEmpty && cs.all Char.isDigit then some (digitsToNat cs) else none

/-- `datetime.strptime(s, "%Y-%m-%d")`, as far as the source consumes it. -/
def parseIso (s : String) : Option (Nat × Nat × Nat) :=
  match splitSep '-' [] s.toList with
  | [ys, ms, ds] =>
    match natOfDigits? ys, natOfDigits? ms, natOfDigits? ds with
    | some y, some m, some d =>
      if validDate y m d then some (y, m, d) else none
    | _, _, _ => none
  | _ => none

/-- The month dictionary of the travel-date step, in insertion order; the
scan keeps the first month name contained in the lowercased input. -/
def monthsTable : List (String × Nat) :=
  [("january", 1), ("february", 2), ("march", 3), ("april", 4), ("may", 5),
   ("june", 6), ("july", 7), ("august", 8), ("september", 9),
   ("october", 10), ("november", 11), ("december", 12)]

def scanMonth (dl : String) : Option Nat :=
  (monthsTable.find? (fun p => containsSub dl p.1)).map (fun p => p.2)

/-! ## Data model -/

/-- A ticket record as stored in `st.session_state.tickets`. -/
structure Ticket where
  id : String
  name : String
  age : Nat
  gender : String
  source : String
  destination : String
  travel_date : Option String
  booking_time : String
  deriving Repr, DecidableEq

/-- The `st.session_state.ticket_details` buffer: a dictionary whose keys
appear as fields are collected (`none` = key absent).  The `id` and
`booking_time` entries that `dict(ticket)` also copies are never read back
by the source, so they are not tracked. -/
structure Details where
  name : Option String := none
  age : Option Nat := none
  gender : Option String := none
  source : Option String := none
  destination : Option String := none
  travel_date : Option String := none
  deriving Repr, DecidableEq

/-- `dict(ticket)` at `select_field`. -/
def detailsOfTicket (t : Ticket) : Details :=
  { name := some t.name, age := some t.age, gender := some t.gender,
    source := some t.source, destination := some t.destination,
    travel_date := t.travel_date }

inductive Op | book | modify | cancel | view
  deriving Repr, DecidableEq

inductive BookStep
  | name | age | gender | source | destination | travel_date | confirm
  deriving Repr, DecidableEq

inductive ModifyStep
  | select_ticket | select_field
  | update_name | update_age | update_gender | update_source | update_destination
  deriving Repr, DecidableEq

inductive CancelStep | select_ticket | confirm
  deriving Repr, DecidableEq

inductive ViewStep
  | display_options | ask_name | ask_id | download_ticket | view_options
  deriving Repr, DecidableEq

/-- The session state of the controller.  `idSupply` and `now` stand for
the environment of the ticket store (generated identifiers, wall clock)
and `today` for `datetime.now()`'s date. -/
structure AppState where
  tickets : List Ticket := []
  current_operation : Option Op := none
  booking_step : Option BookStep := none
  modify_step : Option ModifyStep := none
  cancel_step : Option CancelStep := none
  view_step : Option ViewStep := none
  ticket_details : Details := {}
  selected_ticket_id : Option String := none
  selecting_from_matches : Bool := false
  last_viewed_ticket_id : Option String := none
  ticket_id_to_download : Option String := none
  current_ticket : Option Ticket := none
  first_run : Bool := false
  show_success : Bool := false
  success_message : String := ""
  idSupply : List String := []
  today : Nat × Nat × Nat := (2026, 1, 1)
  now : String := ""
  deriving Repr, DecidableEq

/-! ## Ticket store (`ticket_operations`, modelled from the spec) -/

/-- Modelled from the spec: `ticket_operations.get_ticket_by_id` is not
under `src/`; section 4.3: `find_by_id(id) -> optional Ticket`. -/
def get_ticket_by_id (tid : String) (tickets : List Ticket) : Option Ticket :=
  tickets.find? (fun t => t.id == tid)

/-- Modelled from the spec: `ticket_operations.get_tickets_by_name` is not
under `src/`; section 4.3: `find_by_name(substring) -> [Ticket]`,
case-insensitive substring match over `name`, preserving store order. -/
def get_tickets_by_name (q : String) (tickets : List Ticket) : List Ticket :=
  tickets.filter (fun t => containsSub (strLower t.name) (strLower q))

/-- Modelled from the spec: `ticket_operations.book_ticket` is not under
`src/`; section 4.3: `create(fields) -> Ticket` generates an id and sets
`booking_time`; both are drawn from the session environment here. -/
def book_ticket (nm : String) (ag : Nat) (g src dst : String)
    (td : Option String) (fresh nowTime : String) : Ticket :=
  { id := fresh, name := nm, age := ag, gender := g, source := src,
    destination := dst, travel_date := td, booking_time := nowTime }

/-- Modelled from the spec: `ticket_operations.modify_ticket` is not under
`src/`; section 4.3: `update(id, fields) -> optional Ticket` replaces the
stored fields of the ticket with the given id and returns it, or fails
silently returning none when the id is not found. -/
def modify_ticket (tid nm : String) (ag : Nat) (g src dst : String)
    (tickets : List Ticket) : Option Ticket × List Ticket :=
  match tickets.find? (fun t => t.id == tid) with
  | none => (none, tickets)
  | some t =>
    let t2 : Ticket :=
      { t with name := nm, age := ag, gender := g, source := src, destination := dst }
    (some t2, tickets.map (fun u => if u.id == tid then t2 else u))

/-- Modelled from the spec: `ticket_operations.cancel_ticket` is not under
`src/`; section 4.3: `delete(id) -> bool` removes the ticket with the id,
reporting whether one was found. -/
def cancel_ticket (tid : String) (tickets : List Ticket) : Bool × List Ticket :=
  if tickets.any (fun t => t.id == tid) then
    (true, tickets.filter (fun t => !(t.id == tid)))
  else (false, tickets)

/-! ## Messages shared between handlers -/

/-- The per-ticket line of the menu listings. -/
def ticketMenuLine (idx : Nat) (t : Ticket) : String :=
  "Ticket " ++ toString (idx + 1) ++ ", ID " ++ t.id ++ ", " ++ t.name
    ++ ", from " ++ t.source ++ " to " ++ t.destination

def ticketMenuLines (ts : List Ticket) : List String :=
  ts.enum.map (fun p => ticketMenuLine p.1 p.2)

/-- The ", traveling on ..." fragment: present when the ticket has a
travel date that `strptime` re-parses; a parse failure is swallowed. -/
def travelDateFragment (t : Ticket) : String :=
  match t.travel_date with
  | none => ""
  | some tds =>
    match parseIso tds with
    | some ymd => ", traveling on " ++ formatLong ymd
    | none => ""

/-- The long single-ticket announcement of the View lookups. -/
def viewTicketInfo (t : Ticket) : String :=
  "Found ticket ID " ++ t.id ++ " for " ++ t.name ++ ", age " ++ toString t.age
    ++ ", gender " ++ t.gender ++ ", from " ++ t.source ++ " to " ++ t.destination
    ++ travelDateFragment t ++ ", booked on " ++ t.booking_time

/-- The per-ticket line of the View listings. -/
def viewListLine (idx : Nat) (t : Ticket) : String :=
  "Ticket " ++ toString (idx + 1) ++ ", ID " ++ t.id ++ ", " ++ t.name
    ++ ", age " ++ toString t.age ++ ", from " ++ t.source ++ " to " ++ t.destination
    ++ travelDateFragment t ++ ", booked on " ++ t.booking_time

def viewListLines (ts : List Ticket) : List String :=
  ts.enum.map (fun p => viewListLine p.1 p.2)

def stationExamples (stations : List String) : String :=
  String.intercalate ", " (stations.take 5)

def stationNoMatchMsg (stations : List String) : String :=
  "I couldn't match your station. Please try again. Some examples are: "
    ++ stationExamples stations

/-- Dictionary reads in message interpolation (`details['name']`, ...);
in the dialog's reachable states the keys are always present. -/
def optText (o : Option String) : String := o.getD ""

def optNum (o : Option Nat) : String :=
  match o with
  | some n => toString n
  | none => ""

/-! ## Dialog controller (`src/app.py`) -/

/-- `process_main_menu` of `src/app.py`: keyword dispatch at
`current_operation = None`, first matching branch wins. -/
def process_main_menu (s0 : AppState) (input : Option String) :
    AppState × List String :=
  let p :=
    if s0.first_run then
      ({s0 with first_run := false},
       ["Welcome to the Railway Ticket Reservation System. This system is fully controlled by your voice. Say 'Book a ticket', 'Modify a ticket', 'Cancel a ticket', or 'View tickets'."])
    else (s0, ([] : List String))
  let s := p.1
  let out0 := p.2
  match input with
  | some command =>
    if hasKw command "book" || hasKw command "new" || hasKw command "ticket" then
      ({s with current_operation := some Op.book, booking_step := some BookStep.name},
       out0 ++ ["Starting new ticket booking process. Please tell me your name."])
    else if hasKw command "modify" || hasKw command "edit" || hasKw command "change" then
      if s.tickets.isEmpty then
        ({s with current_operation := none},
         out0 ++ ["You don't have any tickets to modify. Say 'Book a ticket' to create a new booking."])
      else
        ({s with current_operation := some Op.modify,
                 modify_step := some ModifyStep.select_ticket},
         out0 ++ ("You have the following tickets. You can say the ID number or passenger name of the ticket you want to modify."
                   :: ticketMenuLines s.tickets))
    else if hasKw command "cancel" || hasKw command "delete" || hasKw command "remove" then
      if s.tickets.isEmpty then
        ({s with current_operation := none},
         out0 ++ ["You don't have any tickets to cancel. Say 'Book a ticket' to create a new booking."])
      else
        ({s with current_operation := some Op.cancel,
                 cancel_step := some CancelStep.select_ticket},
         out0 ++ ("You have the following tickets. Please say the ID number or passenger name of the ticket you want to cancel."
                   :: ticketMenuLines s.tickets))
    else if hasKw command "view" || hasKw command "show" || hasKw command "list" || hasKw command "all" then
      ({s with current_operation := some Op.view,
               view_step := some ViewStep.display_options},
       out0 ++ ["How would you like to view your tickets? Say 'All tickets' to see all, say a name to search by passenger, or say a ticket ID to see a specific ticket."])
    else if hasKw command "find" || hasKw command "search" || hasKw command "my tickets" || hasKw command "my name" then
      ({s with current_operation := some Op.view, view_step := some ViewStep.ask_name},
       out0 ++ ["Please say the passenger name to search for."])
    else if hasKw command "ticket id" || hasKw command "find id" || hasKw command "search id"
        || hasKw command "lookup id" || hasKw command "ticket number" then
      ({s with current_operation := some Op.view, view_step := some ViewStep.ask_id},
       out0 ++ ["Please say the ticket ID you want to look up."])
    else if hasKw command "help" then
      (s, out0 ++ ["Here are the available commands: Say 'Book a ticket' to create a new booking. Say 'Modify a ticket' followed by a name or ID to change an existing ticket. Say 'Cancel a ticket' followed by a name or ID to remove a booking. Say 'View tickets' to see all your bookings. Say 'Ticket ID' followed by your ticket number to look up a specific ticket. Say 'Find tickets' followed by a name to search for tickets by passenger name."])
    else
      (s, out0 ++ ["Sorry, I didn't understand that command. Please try again."])
  | none =>
    (s, out0 ++ ["I'm listening for your command. Say 'Book a ticket', 'Modify a ticket' followed by a name or ID, 'Cancel a ticket' followed by a name or ID, 'View tickets', 'Look up ticket ID', or 'Search by name'. You can also say 'Help' for a list of all commands."])

/-- The travel-date success continuation of the booking flow: record the
date, announce it together with the confirmation summary, advance to
`confirm`. -/
def recordTravelDate (s : AppState) (ymd : Nat × Nat × Nat) :
    AppState × List String :=
  let td := isoDate ymd
  let d := s.ticket_details
  ({s with ticket_details := {d with travel_date := some td},
           booking_step := some BookStep.confirm},
   ["Travel date recorded as " ++ formatLong ymd ++ ".",
    "Please confirm: You want to book a ticket for " ++ optText d.name
      ++ ", age " ++ optNum d.age ++ ", gender " ++ optText d.gender
      ++ ", from " ++ optText d.source ++ " to " ++ optText d.destination
      ++ ", on " ++ formatLong ymd
      ++ ". Say 'Confirm' to book this ticket or 'Cancel' to abort."])

/-- `process_booking` of `src/app.py`: the Book sub-machine, one step per
turn, dispatching on `booking_step`. -/
def process_booking (stations : List String) (s : AppState)
    (input : Option String) : AppState × List String :=
  match s.booking_step with
  | some BookStep.name =>
    match input with
    | some nm =>
      ({s with ticket_details := {s.ticket_details with name := some nm},
               booking_step := some BookStep.age},
       ["Name recorded as " ++ nm ++ ". Now, please say your age."])
    | none => (s, ["I couldn't hear your name. Please say your full name."])
  | some BookStep.age =>
    match input with
    | some a =>
      match extract_age a with
      | some n =>
        if 1 ≤ n ∧ n ≤ 120 then
          ({s with ticket_details := {s.ticket_details with age := some n},
                   booking_step := some BookStep.gender},
           ["Age recorded as " ++ toString n ++ ". Now, please say your gender: Male, Female, or Other."])
        else (s, ["Age must be between 1 and 120. Please try again."])
      | none => (s, ["I couldn't understand your age. Please say a number clearly."])
    | none => (s, ["I couldn't hear your age. Please say your age as a number."])
  | some BookStep.gender =>
    match input with
    | some g =>
      let gl := strLower g
      let gp :=
        if containsSub gl "male" && !(containsSub gl "female") then
          ("Male", "Gender recorded as Male. Now, please say your source station.")
        else if containsSub gl "female" then
          ("Female", "Gender recorded as Female. Now, please say your source station.")
        else
          ("Other", "Gender recorded as Other. Now, please say your source station.")
      ({s with ticket_details := {s.ticket_details with gender := some gp.1},
               booking_step := some BookStep.source},
       [gp.2])
    | none => (s, ["I couldn't hear your gender. Please say Male, Female, or Other."])
  | some BookStep.source =>
    match input with
    | some src_in =>
      match resolveStation src_in stations with
      | some m =>
        ({s with ticket_details := {s.ticket_details with source := some m},
                 booking_step := some BookStep.destination},
         ["Source station recorded as " ++ m ++ ". Now, please say your destination station."])
      | none => (s, [stationNoMatchMsg stations])
    | none => (s, ["I couldn't hear your source station. Please say the name of your departure station."])
  | some BookStep.destination =>
    match input with
    | some dst_in =>
      match resolveStation dst_in stations with
      | some m =>
        if s.ticket_details.source == some m then
          (s, ["Source and destination cannot be the same. Please choose a different destination."])
        else
          ({s with ticket_details := {s.ticket_details with destination := some m},
                   booking_step := some BookStep.travel_date},
           ["Destination recorded as " ++ m ++ ". Now, please say your travel date in the format month day, for example 'March 30' or say 'tomorrow'."])
      | none => (s, [stationNoMatchMsg stations])
    | none => (s, ["I couldn't hear your destination station. Please say the name of your arrival station."])
  | some BookStep.travel_date =>
    match input with
    | some d_in =>
      let dl := strLower d_in
      if containsSub dl "tomorrow" then
        recordTravelDate s (nextDay s.today)
      else if containsSub dl "today" then
        recordTravelDate s s.today
      else
        match scanMonth dl, extract_day dl with
        | some m, some d =>
          if validDate s.today.1 m d then recordTravelDate s (s.today.1, m, d)
          else (s, ["Invalid date. Please provide a valid date."])
        | _, _ =>
          (s, ["I couldn't understand the date. Please say a date like 'March 30' or 'tomorrow'."])
    | none => (s, ["I couldn't hear your travel date. Please say a date like 'March 30' or 'tomorrow'."])
  | some BookStep.confirm =>
    match input with
    | some c =>
      if hasKw c "confirm" || hasKw c "yes" then
        match s.ticket_details.name, s.ticket_details.age, s.ticket_details.gender,
            s.ticket_details.source, s.ticket_details.destination with
        | some nm, some ag, some g, some src, some dst =>
          let t := book_ticket nm ag g src dst s.ticket_details.travel_date
                     (s.idSupply.headD "TCKT0001") s.now
          ({s with tickets := s.tickets ++ [t],
                   idSupply := s.idSupply.tail,
                   current_ticket := some t,
                   show_success := true,
                   success_message := "Ticket booked successfully! Your ticket ID is "
                     ++ t.id ++ ". What would you like to do next?",
                   current_operation := none,
                   booking_step := none,
                   ticket_details := {}},
           ["Ticket booked successfully! Your ticket ID is " ++ t.id
              ++ ". The ticket is now displayed on screen with a download option. Returning to main menu."])
        | _, _, _, _, _ => (s, [])  -- KeyError in the source; unreachable by the flow
      else if hasKw c "cancel" || hasKw c "no" then
        ({s with current_operation := none, booking_step := none, ticket_details := {}},
         ["Booking cancelled. Returning to main menu."])
      else
        (s, ["Please say 'Confirm' to book the ticket or 'Cancel' to abort."])
    | none =>
      (s, ["I couldn't hear your response. Please say 'Confirm' to book the ticket or 'Cancel' to abort."])
  | none => (s, [])

/-- `process_modification` of `src/app.py`: the Modify sub-machine.  Note
that the `select_field` handler re-copies the stored ticket into
`ticket_details` on every turn that hears input, before branching on the
field keyword (lines 613-614 of the source). -/
def process_modification (stations : List String) (s0 : AppState)
    (input : Option String) : AppState × List String :=
  let s :=
    if s0.modify_step = none then
      {s0 with modify_step := some ModifyStep.select_ticket}
    else s0
  match s.modify_step with
  | some ModifyStep.select_ticket =>
    match input with
    | some ticket_input =>
      match extract_ticket_id ticket_input with
      | some tid =>
        match get_ticket_by_id tid s.tickets with
        | some t =>
          ({s with selected_ticket_id := some tid,
                   modify_step := some ModifyStep.select_field},
           ["Found ticket for " ++ t.name ++ ". What would you like to modify? Say name, age, gender, source, or destination."])
        | none => (s, ["No ticket found with ID " ++ tid ++ ". Please try again."])
      | none =>
        match get_tickets_by_name ticket_input s.tickets with
        | [] =>
          (s, ["No tickets found matching that name or ID. Please try again with a different name or ticket ID."])
        | [t] =>
          ({s with selected_ticket_id := some t.id,
                   modify_step := some ModifyStep.select_field},
           ["Found ticket for " ++ t.name ++ ", from " ++ t.source ++ " to " ++ t.destination
              ++ ". What would you like to modify? Say name, age, gender, source, or destination."])
        | matching =>
          ({s with selecting_from_matches := true},
           ("Found " ++ toString matching.length ++ " tickets for '" ++ ticket_input
              ++ "'. Please choose one by saying the ticket ID:")
             :: matching.map (fun t =>
                  "Ticket ID " ++ t.id ++ ", " ++ t.name ++ ", from " ++ t.source
                    ++ " to " ++ t.destination))
    | none =>
      (s, ["I couldn't hear your command. Please say the ID or passenger name of the ticket you want to modify."])
  | some ModifyStep.select_field =>
    match input with
    | some field_input =>
      let field := strLower field_input
      match s.selected_ticket_id with
      | none => (s, [])  -- get_ticket_by_id(None) finds nothing and dict(None) raises; unreachable
      | some sel =>
        match get_ticket_by_id sel s.tickets with
        | none => (s, [])  -- dict(None) raises TypeError in the source; unreachable by the flow
        | some t =>
          let s := {s with ticket_details := detailsOfTicket t}
          if containsSub field "name" then
            ({s with modify_step := some ModifyStep.update_name},
             ["Current name is " ++ t.name ++ ". Please say the new name."])
          else if containsSub field "age" then
            ({s with modify_step := some ModifyStep.update_age},
             ["Current age is " ++ toString t.age ++ ". Please say the new age."])
          else if containsSub field "gender" then
            ({s with modify_step := some ModifyStep.update_gender},
             ["Current gender is " ++ t.gender ++ ". Please say the new gender."])
          else if containsSub field "source" then
            ({s with modify_step := some ModifyStep.update_source},
             ["Current source station is " ++ t.source ++ ". Please say the new source station."])
          else if containsSub field "destination" then
            ({s with modify_step := some ModifyStep.update_destination},
             ["Current destination station is " ++ t.destination ++ ". Please say the new destination station."])
          else if containsSub field "confirm" || containsSub field "update"
              || containsSub field "save" then
            match s.ticket_details.name, s.ticket_details.age, s.ticket_details.gender,
                s.ticket_details.source, s.ticket_details.destination with
            | some nm, some ag, some g, some src, some dst =>
              match modify_ticket sel nm ag g src dst s.tickets with
              | (some _, upd) =>
                ({s with tickets := upd,
                         show_success := true,
                         success_message := "Ticket updated successfully! What would you like to do next?",
                         current_operation := none,
                         modify_step := some ModifyStep.select_ticket,
                         selected_ticket_id := none,
                         ticket_details := {}},
                 ["Ticket updated successfully. Returning to main menu."])
              | (none, upd) =>
                ({s with tickets := upd,
                         current_operation := none,
                         modify_step := some ModifyStep.select_ticket,
                         selected_ticket_id := none,
                         ticket_details := {}},
                 ["Error updating ticket. Please try again."])
            | _, _, _, _, _ => (s, [])  -- KeyError in the source; the buffer was just copied from a ticket
          else if containsSub field "cancel" || containsSub field "abort" then
            ({s with current_operation := none,
                     modify_step := some ModifyStep.select_ticket,
                     selected_ticket_id := none,
                     ticket_details := {}},
             ["Modification cancelled. Returning to main menu."])
          else
            (s, ["Please specify what you want to modify: name, age, gender, source, or destination. Or say 'Confirm' to save changes or 'Cancel' to abort."])
    | none =>
      (s, ["I couldn't hear your command. Please specify what you want to modify: name, age, gender, source, or destination."])
  | some ModifyStep.update_name =>
    match input with
    | some nm =>
      ({s with ticket_details := {s.ticket_details with name := some nm},
               modify_step := some ModifyStep.select_field},
       ["Name updated to " ++ nm ++ ". What else would you like to modify? Or say 'Confirm' to save changes."])
    | none => (s, ["I couldn't hear your input. Please say the new name."])
  | some ModifyStep.update_age =>
    match input with
    | some a =>
      match extract_age a with
      | some n =>
        if 1 ≤ n ∧ n ≤ 120 then
          ({s with ticket_details := {s.ticket_details with age := some n},
                   modify_step := some ModifyStep.select_field},
           ["Age updated to " ++ toString n ++ ". What else would you like to modify? Or say 'Confirm' to save changes."])
        else (s, ["Age must be between 1 and 120. Please try again."])
      | none => (s, ["I couldn't understand your age. Please say a number clearly."])
    | none => (s, ["I couldn't hear your input. Please say the new age."])
  | some ModifyStep.update_gender =>
    match input with
    | some g =>
      let gl := strLower g
      let gp :=
        if containsSub gl "male" && !(containsSub gl "female") then
          ("Male", "Gender updated to Male. What else would you like to modify? Or say 'Confirm' to save changes.")
        else if containsSub gl "female" then
          ("Female", "Gender updated to Female. What else would you like to modify? Or say 'Confirm' to save changes.")
        else
          ("Other", "Gender updated to Other. What else would you like to modify? Or say 'Confirm' to save changes.")
      ({s with ticket_details := {s.ticket_details with gender := some gp.1},
               modify_step := some ModifyStep.select_field},
       [gp.2])
    | none => (s, ["I couldn't hear your input. Please say Male, Female, or Other."])
  | some ModifyStep.update_source =>
    match input with
    | some src_in =>
      match resolveStation src_in stations with
      | some m =>
        ({s with ticket_details := {s.ticket_details with source := some m},
                 modify_step := some ModifyStep.select_field},
         ["Source station updated to " ++ m ++ ". What else would you like to modify? Or say 'Confirm' to save changes."])
      | none => (s, [stationNoMatchMsg stations])
    | none => (s, ["I couldn't hear your input. Please say the new source station."])
  | some ModifyStep.update_destination =>
    match input with
    | some dst_in =>
      match resolveStation dst_in stations with
      | some m =>
        if s.ticket_details.source == some m then
          (s, ["Source and destination cannot be the same. Please choose a different destination."])
        else
          ({s with ticket_details := {s.ticket_details with destination := some m},
                   modify_step := some ModifyStep.select_field},
           ["Destination station updated to " ++ m ++ ". What else would you like to modify? Or say 'Confirm' to save changes."])
      | none => (s, [stationNoMatchMsg stations])
    | none => (s, ["I couldn't hear your input. Please say the new destination station."])
  | none => (s, [])  -- unreachable: the lazy initialisation above filled the step

/-- `process_cancellation` of `src/app.py`: the Cancel sub-machine. -/
def process_cancellation (s0 : AppState) (input : Option String) :
    AppState × List String :=
  let s :=
    if s0.cancel_step = none then
      {s0 with cancel_step := some CancelStep.select_ticket}
    else s0
  match s.cancel_step with
  | some CancelStep.select_ticket =>
    match input with
    | some ticket_input =>
      match extract_ticket_id ticket_input with
      | some tid =>
        match get_ticket_by_id tid s.tickets with
        | some t =>
          ({s with selected_ticket_id := some tid,
                   cancel_step := some CancelStep.confirm},
           ["Found ticket for " ++ t.name ++ " from " ++ t.source ++ " to " ++ t.destination
              ++ ". Say 'Confirm' to cancel this ticket or 'No' to keep it."])
        | none => (s, ["No ticket found with ID " ++ tid ++ ". Please try again."])
      | none =>
        match get_tickets_by_name ticket_input s.tickets with
        | [] =>
          (s, ["No tickets found matching that name or ID. Please try again with a different name or ticket ID."])
        | [t] =>
          ({s with selected_ticket_id := some t.id,
                   cancel_step := some CancelStep.confirm},
           ["Found ticket for " ++ t.name ++ ", from " ++ t.source ++ " to " ++ t.destination
              ++ ". Say 'Confirm' to cancel this ticket or 'No' to keep it."])
        | matching =>
          (s,
           ("Found " ++ toString matching.length ++ " tickets for '" ++ ticket_input
              ++ "'. Please choose one by saying the ticket ID:")
             :: matching.map (fun t =>
                  "Ticket ID " ++ t.id ++ ", " ++ t.name ++ ", from " ++ t.source
                    ++ " to " ++ t.destination))
    | none =>
      (s, ["I couldn't hear your command. Please say the ID or passenger name of the ticket you want to cancel."])
  | some CancelStep.confirm =>
    match input with
    | some c =>
      if hasKw c "confirm" || hasKw c "yes" || hasKw c "delete" then
        match cancel_ticket (s.selected_ticket_id.getD "") s.tickets with
        | (true, upd) =>
          ({s with tickets := upd,
                   show_success := true,
                   success_message := "Ticket cancelled successfully! What would you like to do next?",
                   current_operation := none,
                   cancel_step := some CancelStep.select_ticket,
                   selected_ticket_id := none},
           ["Ticket cancelled successfully. Returning to main menu."])
        | (false, upd) =>
          ({s with tickets := upd,
                   current_operation := none,
                   cancel_step := some CancelStep.select_ticket,
                   selected_ticket_id := none},
           ["Error cancelling ticket. Please try again."])
      else if hasKw c "no" || hasKw c "keep" || hasKw c "don't" then
        ({s with current_operation := none,
                 cancel_step := some CancelStep.select_ticket,
                 selected_ticket_id := none},
         ["Cancellation aborted. Ticket is kept. Returning to main menu."])
      else
        (s, ["Please say 'Confirm' to cancel the ticket or 'No' to keep it."])
    | none =>
      (s, ["I couldn't hear your command. Please say 'Confirm' to cancel the ticket or 'No' to keep it."])
  | none => (s, [])  -- unreachable: the lazy initialisation above filled the step

/-- The shared continuation of `display_options` once a ticket id was
found in the utterance (`if ticket_id:` in the source): announce the
ticket, remember it as last viewed, and move to `view_options`; an unknown
id only re-prompts. -/
def viewLookupFound (s : AppState) (tid : String) : AppState × List String :=
  match get_ticket_by_id tid s.tickets with
  | some t =>
    ({s with last_viewed_ticket_id := some t.id,
             ticket_id_to_download := some t.id,
             current_operation := some Op.view,
             view_step := some ViewStep.view_options},
     [viewTicketInfo t,
      "You can download your ticket as a PDF file using the download link on the screen. Say 'download ticket' to get your ticket."])
  | none => (s, ["No ticket found with ID " ++ tid ++ ". Please try again."])

/-- The "all tickets" listing of `display_options` (also reached when the
name search is skipped): list and return to the main menu. -/
def viewShowAll (s : AppState) : AppState × List String :=
  if s.tickets.isEmpty then
    ({s with current_operation := none, view_step := none},
     ["You don't have any tickets. Say 'Book a ticket' to create a new booking."])
  else
    ({s with current_operation := none, view_step := none},
     ("You have " ++ toString s.tickets.length ++ " tickets. Here are your tickets:")
       :: viewListLines s.tickets
       ++ ["End of ticket list. Say a new command to continue."])

/-- The name-search tail of `display_options`: list matches (or report
none) and return to the main menu. -/
def viewNameSearch (s : AppState) (q : String) : AppState × List String :=
  match get_tickets_by_name q s.tickets with
  | [] =>
    ({s with current_operation := none, view_step := none},
     ["No tickets found for name containing '" ++ q ++ "'. Say 'Book a ticket' to create a new booking."])
  | matching =>
    ({s with current_operation := none, view_step := none},
     ("Found " ++ toString matching.length ++ " tickets for name containing '" ++ q ++ "':")
       :: viewListLines matching
       ++ ["End of ticket list. Say a new command to continue."])

/-- `process_view` of `src/app.py`: the View sub-machine, including the
`download_ticket` pass that runs without listening and the `view_options`
follow-up menu. -/
def process_view (s0 : AppState) (input : Option String) :
    AppState × List String :=
  let s :=
    if s0.view_step = none then
      {s0 with view_step := some ViewStep.display_options}
    else s0
  match s.view_step with
  | some ViewStep.display_options =>
    match input with
    | some view_input0 =>
      let view_input := strLower view_input0
      if (containsSub view_input "view" && containsSub view_input "ticket")
          || containsSub view_input "ticket id" then
        match extract_ticket_id view_input with
        | some tid => viewLookupFound s tid
        | none =>
          ({s with view_step := some ViewStep.ask_id},
           ["Please say the ticket ID you want to view."])
      else if containsSub view_input "download" then
        match extract_ticket_id view_input with
        | some tid =>
          ({s with view_step := some ViewStep.download_ticket,
                   ticket_id_to_download := some tid}, [])
        | none =>
          match s.last_viewed_ticket_id with
          | some tid =>
            ({s with view_step := some ViewStep.download_ticket,
                     ticket_id_to_download := some tid},
             ["Preparing to download your last viewed ticket."])
          | none =>
            (s, ["I don't know which ticket to download. Please view a ticket first."])
      else
        match extract_ticket_id view_input with
        | some tid => viewLookupFound s tid
        | none =>
          if containsSub view_input "all" || containsSub view_input "show all"
              || containsSub view_input "list all" then
            viewShowAll s
          else
            viewNameSearch s view_input
    | none =>
      (s, ["I couldn't hear your input. Please say a ticket ID, name, or 'All tickets' to see all bookings."])
  | some ViewStep.ask_name =>
    match input with
    | some name_input =>
      match get_tickets_by_name name_input s.tickets with
      | [] =>
        ({s with current_operation := none, view_step := none},
         ["No tickets found for name containing '" ++ name_input ++ "'. Say 'Book a ticket' to create a new booking."])
      | matching =>
        ({s with current_operation := none, view_step := none},
         ("Found " ++ toString matching.length ++ " tickets for name containing '" ++ name_input ++ "':")
           :: viewListLines matching
           ++ ["End of ticket list. Say a new command to continue."])
    | none => (s, ["I couldn't hear your input. Please say a name to search for."])
  | some ViewStep.ask_id =>
    match input with
    | some id_input =>
      match extract_ticket_id id_input with
      | some tid =>
        match get_ticket_by_id tid s.tickets with
        | some t =>
          ({s with current_operation := none, view_step := none},
           [viewTicketInfo t,
            "You can download your ticket as a PDF file using the download link on the screen."])
        | none =>
          (s, ["No ticket found with ID " ++ tid ++ ". Please try again or say 'main menu' to return."])
      | none =>
        (s, ["I couldn't recognize a ticket ID in what you said. Ticket IDs consist of 8 letters and numbers. Please try again or say 'main menu' to return."])
    | none => (s, ["I couldn't hear your input. Please say the ticket ID clearly."])
  | some ViewStep.download_ticket =>
    -- this pass never listens: it serves the pending download and resets
    match s.ticket_id_to_download with
    | some tid =>
      match get_ticket_by_id tid s.tickets with
      | some t =>
        ({s with current_operation := none, view_step := none,
                 ticket_id_to_download := none},
         ["Your ticket for " ++ t.name ++ " traveling from " ++ t.source ++ " to " ++ t.destination
            ++ " is ready for download. Click the Download Ticket PDF button on your screen. It's a large blue button near the middle of the screen."])
      | none =>
        ({s with view_step := some ViewStep.display_options},
         ["Sorry, I couldn't find a ticket with ID " ++ tid ++ ". Please try again with a valid ticket ID."])
    | none => (s, [])  -- hasattr fails: neither inner branch of the source runs
  | some ViewStep.view_options =>
    match input with
    | some next_command0 =>
      let next_command := strLower next_command0
      if containsSub next_command "download" then
        match extract_ticket_id next_command with
        | some tid =>
          let s := {s with ticket_id_to_download := some tid}
          match get_ticket_by_id tid s.tickets with
          | some _ => ({s with view_step := some ViewStep.download_ticket}, [])
          | none =>
            ({s with view_step := some ViewStep.display_options,
                     ticket_id_to_download := none},
             ["Sorry, I couldn't find ticket with ID " ++ tid ++ ". Please try again."])
        | none =>
          match s.last_viewed_ticket_id with
          | some tid =>
            let s := {s with ticket_id_to_download := some tid}
            match get_ticket_by_id tid s.tickets with
            | some _ => ({s with view_step := some ViewStep.download_ticket}, [])
            | none =>
              ({s with view_step := some ViewStep.display_options,
                       ticket_id_to_download := none},
               ["Sorry, I couldn't find ticket with ID " ++ tid ++ ". Please try again."])
          | none =>
            ({s with view_step := some ViewStep.display_options},
             ["I don't have a ticket ID to download. Please view a ticket first by saying a ticket ID."])
      else if containsSub next_command "main" || containsSub next_command "menu"
          || containsSub next_command "back" then
        ({s with current_operation := none, view_step := none},
         ["Returning to main menu. Say a new command."])
      else
        ({s with view_step := some ViewStep.display_options}, [])
    | none =>
      (s, ["I couldn't hear your command. Say 'download ticket' to download or 'main menu' to return."])
  | none => (s, [])  -- unreachable: the lazy initialisation above filled the step

/-- `main()` of `src/app.py`: surface a pending success notice, clear the
freshly booked ticket display, and dispatch on `current_operation`. -/
def main_turn (stations : List String) (s0 : AppState) (input : Option String) :
    AppState × List String :=
  let p :=
    if s0.show_success then
      ({s0 with show_success := false, success_message := ""}, [s0.success_message])
    else (s0, ([] : List String))
  let s1 :=
    match p.1.current_ticket with
    | some _ => {p.1 with current_ticket := none}
    | none => p.1
  let r :=
    match s1.current_operation with
    | none => process_main_menu s1 input
    | some Op.book => process_booking stations s1 input
    | some Op.modify => process_modification stations s1 input
    | some Op.cancel => process_cancellation s1 input
    | some Op.view => process_view s1 input
  (r.1, p.2 ++ r.2)

/-- `display_text_as_voice` of `src/app.py`: the visible textual echo is
emitted first, unconditionally; the text-to-speech attempt (engine import,
initialisation, property setting, speaking) is modelled as one fallible
call `speak`, and any failure it reports is caught by the bare `except`
and dropped.  The result is the emitted text list and the outcome
propagated to the caller. -/
def display_text_as_voice (speak : String → Except String Unit)
    (text : String) : List String × Except String Unit :=
  let echoed := ["🔊 System says: " ++ text]
  match speak text with
  | Except.ok _ => (echoed, Except.ok ())
  | Except.error _ => (echoed, Except.ok ())  -- except: pass

/-! ## Claims -/

/-- C9: the notice sink `display_text_as_voice` always performs the
visible textual echo, and any failure of the text-to-speech engine is
caught and swallowed: for every engine behaviour and every text the
result is the echo alone with no error propagated, so the observable
effect is identical whether speech synthesis succeeds or fails. -/
theorem notice_sink_swallows_failures :
    ∀ (speak : String → Except String Unit) (text : String),
      display_text_as_voice speak text
        = (["🔊 System says: " ++ text], Except.ok ()) := by
  intro speak text
  unfold display_text_as_voice
  cases speak text <;> rfl

/-- C5 counterexample: the station resolver, given "cntrl" and the catalog
["Central", "Eastside"], does not return "Central": "cntrl" is not a
substring of "central" (nor the converse), so "Central" is never a
candidate. -/
theorem resolver_cntrl_not_central :
    ¬ resolveStation "cntrl" ["Central", "Eastside"] = some "Central" := by
  decide

/-- C5 amended: given "cntrl" and ["Central", "Eastside"] the resolver
returns no match at all, because neither lowercased string is a substring
of the other and the candidate rule admits only substring pairs; the
scoring rule applies as documented to actual candidates, e.g. "centra"
(a substring of "central") selects "Central". -/
theorem resolver_cntrl_amended :
    resolveStation "cntrl" ["Central", "Eastside"] = none
      ∧ resolveStation "centra" ["Central", "Eastside"] = some "Central" := by
  decide

/-- C1 (code bug, evaluated at the failing input): in the Modify flow,
selecting the age field, entering the successfully parsed new age 30 and
then saying "confirm" at `select_field` leaves the stored ticket at its
old age 25 — the buffered edit (visible in the buffer after the update
step) is discarded, because `select_field` re-copies the stored ticket
into `ticket_details` on the confirm turn before calling the store
update. -/
theorem modify_commit_discards_buffered_edits :
    let t0 : Ticket :=
      { id := "AB12CD34", name := "John Smith", age := 25, gender := "Male",
        source := "Central", destination := "North", travel_date := none,
        booking_time := "t0" }
    let cat := ["Central", "North"]
    let s0 : AppState :=
      { tickets := [t0], current_operation := some Op.modify,
        modify_step := some ModifyStep.select_field,
        selected_ticket_id := some "AB12CD34" }
    let s1 := (process_modification cat s0 (some "age")).1
    let s2 := (process_modification cat s1 (some "30")).1
    let s3 := (process_modification cat s2 (some "confirm")).1
    s2.ticket_details.age = some 30 ∧ s3.tickets = [t0] := by
  decide

/-- C7: the age parser (Book `age` step and Modify `update_age` step).
When the number extracted from the utterance is 1 or 120 the age is
accepted: the buffer records it and the dialog advances (to `gender`,
resp. back to `select_field`) with the store untouched.  When the
extracted number is 0 or 121, or the utterance holds no extractable
number, the turn leaves the state exactly as it was and emits a
corrective prompt. -/
theorem age_parser_boundaries :
    ∀ (stations : List String) (s : AppState) (u : String),
      (s.booking_step = some BookStep.age →
        ((extract_age u = some 1 ∨ extract_age u = some 120) →
          (process_booking stations s (some u)).1.booking_step = some BookStep.gender ∧
          (process_booking stations s (some u)).1.ticket_details.age = extract_age u ∧
          (process_booking stations s (some u)).1.tickets = s.tickets) ∧
        ((extract_age u = some 0 ∨ extract_age u = some 121 ∨ extract_age u = none) →
          (process_booking stations s (some u)).1 = s ∧
          (process_booking stations s (some u)).2 ≠ [])) ∧
      (s.modify_step = some ModifyStep.update_age →
        ((extract_age u = some 1 ∨ extract_age u = some 120) →
          (process_modification stations s (some u)).1.modify_step = some ModifyStep.select_field ∧
          (process_modification stations s (some u)).1.ticket_details.age = extract_age u ∧
          (process_modification stations s (some u)).1.tickets = s.tickets) ∧
        ((extract_age u = some 0 ∨ extract_age u = some 121 ∨ extract_age u = none) →
          (process_modification stations s (some u)).1 = s ∧
          (process_modification stations s (some u)).2 ≠ [])) := by
  intro stations s u
  constructor
  · intro hb
    constructor
    · rintro (h1 | h1) <;> simp +decide [process_booking, hb, h1]
    · rintro (h0 | h0 | h0) <;> simp +decide [process_booking, hb, h0]
  · intro hm
    constructor
    · rintro (h1 | h1) <;> simp +decide [process_modification, hm, h1]
    · rintro (h0 | h0 | h0) <;> simp +decide [process_modification, hm, h0]

/-- C7 witness: the theorem applied to the concrete booking state at the
`age` step with utterance "1", and to the Modify `update_age` state with
utterance "121". -/
theorem age_parser_boundaries_witness :
    ((process_booking [] { booking_step := some BookStep.age } (some "1")).1.booking_step
        = some BookStep.gender) ∧
    ((process_modification [] { modify_step := some ModifyStep.update_age } (some "121")).1
        = { modify_step := some ModifyStep.update_age }) := by
  refine ⟨?_, ?_⟩
  · exact (((age_parser_boundaries [] { booking_step := some BookStep.age } "1").1
      (by decide)).1 (Or.inl (by decide))).1
  · exact (((age_parser_boundaries [] { modify_step := some ModifyStep.update_age } "121").2
      (by decide)).2 (Or.inr (Or.inl (by decide)))).1

/-- C10: with an empty ticket store, a main-menu modify command (one whose
utterance carries a modify keyword and none of the higher-priority book
keywords) announces that there are no tickets to modify and ends the turn
with `current_operation` back at none, the store still empty and the
Modify step untouched; a cancel command (carrying a cancel keyword and
none of the book or modify keywords) behaves the same for cancellation. -/
theorem empty_store_modify_cancel_ends_turn :
    ∀ (s : AppState) (u : String),
      s.tickets = [] →
      ((hasKw u "modify" || hasKw u "edit" || hasKw u "change") = true →
        (hasKw u "book" || hasKw u "new" || hasKw u "ticket") = false →
        (process_main_menu s (some u)).1.current_operation = none ∧
        (process_main_menu s (some u)).1.tickets = [] ∧
        (process_main_menu s (some u)).1.modify_step = s.modify_step ∧
        "You don't have any tickets to modify. Say 'Book a ticket' to create a new booking."
          ∈ (process_main_menu s (some u)).2) ∧
      ((hasKw u "cancel" || hasKw u "delete" || hasKw u "remove") = true →
        (hasKw u "book" || hasKw u "new" || hasKw u "ticket") = false →
        (hasKw u "modify" || hasKw u "edit" || hasKw u "change") = false →
        (process_main_menu s (some u)).1.current_operation = none ∧
        (process_main_menu s (some u)).1.tickets = [] ∧
        (process_main_menu s (some u)).1.cancel_step = s.cancel_step ∧
        "You don't have any tickets to cancel. Say 'Book a ticket' to create a new booking."
          ∈ (process_main_menu s (some u)).2) := by
  intro s u hts
  constructor
  · intro hm hnb
    cases hfr : s.first_run <;> simp [process_main_menu, hfr, hm, hnb, hts]
  · intro hc hnb hnm
    cases hfr : s.first_run <;> simp [process_main_menu, hfr, hc, hnb, hnm, hts]

/-- C10 witness: the theorem applied at the empty store to the utterances
"modify" and "cancel". -/
theorem empty_store_modify_cancel_ends_turn_witness :
    (process_main_menu {} (some "modify")).1.current_operation = none ∧
    (process_main_menu {} (some "cancel")).1.current_operation = none := by
  refine ⟨?_, ?_⟩
  · exact ((empty_store_modify_cancel_ends_turn {} "modify" rfl).1
      (by decide) (by decide)).1
  · exact ((empty_store_modify_cancel_ends_turn {} "cancel" rfl).2
      (by decide) (by decide) (by decide)).1

/-- C8 counterexample: at `view_options`, the utterance "hello there" is
neither a download command nor a return-to-menu command, yet the View
sub-step does not stay at `view_options` — the session state changes. -/
theorem view_options_unrecognized_changes_step :
    let t0 : Ticket :=
      { id := "AB12CD34", name := "John Smith", age := 25, gender := "Male",
        source := "Central", destination := "North", travel_date := none,
        booking_time := "t0" }
    let s : AppState :=
      { tickets := [t0], current_operation := some Op.view,
        view_step := some ViewStep.view_options,
        last_viewed_ticket_id := some "AB12CD34" }
    ¬ (process_view s (some "hello there")).1.view_step = some ViewStep.view_options := by
  decide

/-- C8 amended: at `view_options`, an utterance that is neither a
download command nor a main/menu/back command silently resets the View
sub-step to `display_options`: `current_operation` stays view (and every
other session field is unchanged), and no message is emitted. -/
theorem view_options_unrecognized_amended :
    ∀ (s : AppState) (u : String),
      s.view_step = some ViewStep.view_options →
      hasKw u "download" = false →
      hasKw u "main" = false → hasKw u "menu" = false → hasKw u "back" = false →
      process_view s (some u)
        = ({s with view_step := some ViewStep.display_options}, []) := by
  intro s u hv hd hb1 hb2 hb3
  simp only [hasKw] at hd hb1 hb2 hb3
  simp [process_view, hv, hd, hb1, hb2, hb3]

/-- C8 witness: the theorem applied at a concrete `view_options` state
with the utterance "xyzzy". -/
theorem view_options_unrecognized_amended_witness :
    process_view { current_operation := some Op.view, view_step := some ViewStep.view_options } (some "xyzzy")
      = ({ current_operation := some Op.view, view_step := some ViewStep.display_options }, []) := by
  exact view_options_unrecognized_amended
    { current_operation := some Op.view, view_step := some ViewStep.view_options }
    "xyzzy" rfl (by decide) (by decide) (by decide) (by decide)

/-- C4 counterexample: an `ask_id` lookup that resolves the spoken id to
an existing ticket does not record it as last viewed and does not move to
`view_options`: the View operation ends instead (operation and step
cleared, last-viewed id still unset). -/
theorem ask_id_lookup_bypasses_view_options :
    let t0 : Ticket :=
      { id := "AB12CD34", name := "John Smith", age := 25, gender := "Male",
        source := "Central", destination := "North", travel_date := none,
        booking_time := "t0" }
    let s : AppState :=
      { tickets := [t0], current_operation := some Op.view,
        view_step := some ViewStep.ask_id }
    get_ticket_by_id "AB12CD34" s.tickets = some t0 ∧
    ¬ (process_view s (some "AB12CD34")).1.view_step = some ViewStep.view_options ∧
    (process_view s (some "AB12CD34")).1.last_viewed_ticket_id = none := by
  decide

/-- C4 amended: only the `display_options` sub-step's successful id
lookup records the ticket as last viewed and transitions to
`view_options` (shown here for utterances without a download keyword);
the `ask_id` sub-step, on resolving an embedded id to an existing ticket,
announces it and ends the View operation (operation none, step cleared)
without touching the last-viewed id. -/
theorem single_ticket_lookup_amended :
    ∀ (s : AppState) (u tid : String) (t : Ticket),
      (s.view_step = some ViewStep.display_options →
        extract_ticket_id (strLower u) = some tid →
        hasKw u "download" = false →
        get_ticket_by_id tid s.tickets = some t →
        (process_view s (some u)).1.last_viewed_ticket_id = some t.id ∧
        (process_view s (some u)).1.view_step = some ViewStep.view_options ∧
        (process_view s (some u)).1.current_operation = some Op.view) ∧
      (s.view_step = some ViewStep.ask_id →
        extract_ticket_id u = some tid →
        get_ticket_by_id tid s.tickets = some t →
        (process_view s (some u)).1.current_operation = none ∧
        (process_view s (some u)).1.view_step = none ∧
        (process_view s (some u)).1.last_viewed_ticket_id = s.last_viewed_ticket_id) := by
  intro s u tid t
  constructor
  · intro hv hex hdl hget
    simp only [hasKw] at hdl
    cases hb : ((containsSub (strLower u) "view" && containsSub (strLower u) "ticket")
        || containsSub (strLower u) "ticket id") <;>
      simp [process_view, hv, hex, hdl, hb, viewLookupFound, hget]
  · intro hv hex hget
    simp [process_view, hv, hex, hget]

/-- C4 witness: the theorem applied at concrete `display_options` and
`ask_id` states holding the ticket AB12CD34, with the utterance
"AB12CD34". -/
theorem single_ticket_lookup_amended_witness :
    (process_view { tickets := [{ id := "AB12CD34", name := "J", age := 25, gender := "M", source := "A", destination := "B", travel_date := none, booking_time := "" }], current_operation := some Op.view, view_step := some ViewStep.display_options } (some "AB12CD34")).1.view_step = some ViewStep.view_options ∧
    (process_view { tickets := [{ id := "AB12CD34", name := "J", age := 25, gender := "M", source := "A", destination := "B", travel_date := none, booking_time := "" }], current_operation := some Op.view, view_step := some ViewStep.ask_id } (some "AB12CD34")).1.view_step = none := by
  refine ⟨?_, ?_⟩
  · exact ((single_ticket_lookup_amended
      { tickets := [{ id := "AB12CD34", name := "J", age := 25, gender := "M", source := "A", destination := "B", travel_date := none, booking_time := "" }], current_operation := some Op.view, view_step := some ViewStep.display_options }
      "AB12CD34" "AB12CD34"
      { id := "AB12CD34", name := "J", age := 25, gender := "M", source := "A", destination := "B", travel_date := none, booking_time := "" }).1
      rfl (by decide) (by decide) (by decide)).2.1
  · exact ((single_ticket_lookup_amended
      { tickets := [{ id := "AB12CD34", name := "J", age := 25, gender := "M", source := "A", destination := "B", travel_date := none, booking_time := "" }], current_operation := some Op.view, view_step := some ViewStep.ask_id }
      "AB12CD34" "AB12CD34"
      { id := "AB12CD34", name := "J", age := 25, gender := "M", source := "A", destination := "B", travel_date := none, booking_time := "" }).2
      rfl (by decide) (by decide)).2.1

/-- C3 counterexample: the utterance "ticket id", spoken at the main
menu, contains the id-lookup phrase "ticket id" but is captured by the
higher-priority book branch (it contains the book keyword "ticket"): the
controller enters Book, not View with `ask_id`. -/
theorem ticket_id_utterance_routes_to_book :
    (process_main_menu {} (some "ticket id")).1.current_operation = some Op.book ∧
    (process_main_menu {} (some "ticket id")).1.view_step = none := by
  decide

/-- C3 amended: main-menu dispatch is first-match-wins in the fixed order
book, modify, cancel, view-all, view-by-name, view-by-id, help, fallback,
so an utterance containing an id-lookup phrase reaches the View `ask_id`
branch only when it contains none of the keywords of the five earlier
branches.  Among the documented id-lookup phrases only "lookup id" can
satisfy that ("ticket id" and "ticket number" contain the book keyword
"ticket", "find id" and "search id" contain the view-by-name keywords
"find" and "search"). -/
theorem id_lookup_dispatch_amended :
    ∀ (s : AppState) (u : String),
      (hasKw u "ticket id" || hasKw u "find id" || hasKw u "search id"
        || hasKw u "lookup id" || hasKw u "ticket number") = true →
      (hasKw u "book" || hasKw u "new" || hasKw u "ticket") = false →
      (hasKw u "modify" || hasKw u "edit" || hasKw u "change") = false →
      (hasKw u "cancel" || hasKw u "delete" || hasKw u "remove") = false →
      (hasKw u "view" || hasKw u "show" || hasKw u "list" || hasKw u "all") = false →
      (hasKw u "find" || hasKw u "search" || hasKw u "my tickets" || hasKw u "my name") = false →
      (process_main_menu s (some u)).1.current_operation = some Op.view ∧
      (process_main_menu s (some u)).1.view_step = some ViewStep.ask_id := by
  intro s u hid h1 h2 h3 h4 h5
  cases hfr : s.first_run <;> simp [process_main_menu, hfr, hid, h1, h2, h3, h4, h5]

/-- C3 witness: the theorem applied to "lookup id" at the main menu. -/
theorem id_lookup_dispatch_amended_witness :
    (process_main_menu {} (some "lookup id")).1.current_operation = some Op.view ∧
    (process_main_menu {} (some "lookup id")).1.view_step = some ViewStep.ask_id := by
  exact id_lookup_dispatch_amended {} "lookup id"
    (by decide) (by decide) (by decide) (by decide) (by decide) (by decide)

/-- C6 counterexample: at the View `download_ticket` sub-step the turn
runs without listening, so even with no input the state advances: the
operation is reset to none instead of being held. -/
theorem no_input_download_step_advances :
    let t0 : Ticket :=
      { id := "AB12CD34", name := "John Smith", age := 25, gender := "Male",
        source := "Central", destination := "North", travel_date := none,
        booking_time := "t0" }
    let s : AppState :=
      { tickets := [t0], current_operation := some Op.view,
        view_step := some ViewStep.download_ticket,
        ticket_id_to_download := some "AB12CD34" }
    ¬ (main_turn [] s none).1.current_operation = s.current_operation := by
  decide

/-- The dialog states that listen for input this turn: any operation's
step fields are filled consistently with the operation, and a View
session is not at `download_ticket` (that pass runs without listening). -/
def ListeningState (s : AppState) : Prop :=
  (s.current_operation = some Op.book → s.booking_step ≠ none) ∧
  (s.current_operation = some Op.modify → s.modify_step ≠ none) ∧
  (s.current_operation = some Op.cancel → s.cancel_step ≠ none) ∧
  (s.current_operation = some Op.view →
    s.view_step ≠ none ∧ s.view_step ≠ some ViewStep.download_ticket)

/-- C6 amended: in every dialog state that listens this turn (the main
menu and every sub-step of Book, Modify, Cancel and View except View's
`download_ticket` pass, which never listens), a turn with no input leaves
the operation, all step fields, the field buffer, the selected ticket id
and the ticket store unchanged and emits a prompt. -/
theorem no_input_reprompts_amended :
    ∀ (stations : List String) (s : AppState),
      ListeningState s →
      (main_turn stations s none).1.current_operation = s.current_operation ∧
      (main_turn stations s none).1.booking_step = s.booking_step ∧
      (main_turn stations s none).1.modify_step = s.modify_step ∧
      (main_turn stations s none).1.cancel_step = s.cancel_step ∧
      (main_turn stations s none).1.view_step = s.view_step ∧
      (main_turn stations s none).1.ticket_details = s.ticket_details ∧
      (main_turn stations s none).1.selected_ticket_id = s.selected_ticket_id ∧
      (main_turn stations s none).1.tickets = s.tickets ∧
      (main_turn stations s none).2 ≠ [] := by
  intro stations s h
  obtain ⟨hB, hM, hC, hV⟩ := h
  rcases hop : s.current_operation with _ | op
  · cases hss : s.show_success <;> cases hct : s.current_ticket <;>
      cases hfr : s.first_run <;>
        simp [main_turn, process_main_menu, hss, hct, hop, hfr]
  · cases op
    case book =>
      rcases hbs : s.booking_step with _ | bs
      · exact absurd hbs (hB hop)
      · cases hss : s.show_success <;> cases hct : s.current_ticket <;>
          cases bs <;> simp [main_turn, process_booking, hss, hct, hop, hbs]
    case modify =>
      rcases hms : s.modify_step with _ | ms
      · exact absurd hms (hM hop)
      · cases hss : s.show_success <;> cases hct : s.current_ticket <;>
          cases ms <;> simp [main_turn, process_modification, hss, hct, hop, hms]
    case cancel =>
      rcases hcs : s.cancel_step with _ | cs
      · exact absurd hcs (hC hop)
      · cases hss : s.show_success <;> cases hct : s.current_ticket <;>
          cases cs <;> simp [main_turn, process_cancellation, hss, hct, hop, hcs]
    case view =>
      obtain ⟨hvn, hvd⟩ := hV hop
      rcases hvs : s.view_step with _ | vs
      · exact absurd hvs hvn
      · cases hss : s.show_success <;> cases hct : s.current_ticket <;>
          cases vs <;> first
            | exact absurd hvs hvd
            | simp [main_turn, process_view, hss, hct, hop, hvs]

/-- C6 witness: the theorem applied to the fresh session state (main
menu) with no input. -/
theorem no_input_reprompts_amended_witness :
    (main_turn [] {} none).1.current_operation = none ∧
    (main_turn [] {} none).2 ≠ [] := by
  have hls : ListeningState {} := by simp [ListeningState]
  have h := no_input_reprompts_amended [] {} hls
  exact ⟨h.1, h.2.2.2.2.2.2.2.2⟩

/-- Whether a booking buffer whose source and destination are both
present records two different stations (vacuously true while either is
still missing). -/
def bufOK (d : Details) : Bool :=
  match d.source, d.destination with
  | some a, some b => a != b
  | _, _ => true

/-- Every stored ticket has distinct source and destination. -/
def TicketsOK (ts : List Ticket) : Prop :=
  ∀ t ∈ ts, t.source ≠ t.destination

/-- The source/destination invariant of the controller: all stored
tickets are well-formed, and once the booking flow has passed the
destination check (steps `travel_date` and `confirm`) the buffer cannot
commit equal stations. -/
def ControllerInv (s : AppState) : Prop :=
  TicketsOK s.tickets ∧
  ((s.current_operation = some Op.book ∧
      (s.booking_step = some BookStep.travel_date ∨
        s.booking_step = some BookStep.confirm)) →
    bufOK s.ticket_details = true)

theorem ticketsOK_append (ts : List Ticket) (t : Ticket)
    (h : TicketsOK ts) (h2 : t.source ≠ t.destination) :
    TicketsOK (ts ++ [t]) := by
  intro x hx
  rcases List.mem_append.mp hx with hx | hx
  · exact h x hx
  · have hx' := List.mem_singleton.mp hx
    subst hx'
    exact h2

theorem ticketsOK_cancel (tid : String) (ts : List Ticket) (h : TicketsOK ts) :
    TicketsOK (cancel_ticket tid ts).2 := by
  unfold cancel_ticket
  split
  · intro x hx
    exact h x (List.mem_of_mem_filter hx)
  · exact h

theorem ticketsOK_update_self (sel : String) (t : Ticket) (ts : List Ticket)
    (hfind : ts.find? (fun x => x.id == sel) = some t) (h : TicketsOK ts) :
    TicketsOK (modify_ticket sel t.name t.age t.gender t.source t.destination ts).2 := by
  have ht : t ∈ ts := List.mem_of_find?_eq_some hfind
  have hsd : t.source ≠ t.destination := h t ht
  unfold modify_ticket
  simp only [hfind]
  intro x hx
  rcases List.mem_map.mp hx with ⟨u, hu, rfl⟩
  by_cases hid : (u.id == sel) = true
  · simp only [hid, if_true]
    exact hsd
  · simp only [hid, if_false, Bool.false_eq_true, ite_false]
    exact h u hu

theorem bufOK_set_destination (d : Details) (m : String)
    (h : (d.source == some m) = false) :
    bufOK {d with destination := some m} = true := by
  cases hs : d.source with
  | none => simp [bufOK, hs]
  | some a =>
    rw [hs] at h
    simp only [beq_eq_false_iff_ne, ne_eq, Option.some.injEq] at h
    simp [bufOK, hs, bne_iff_ne]
    exact h

theorem bufOK_set_travel (d : Details) (x : Option String) :
    bufOK {d with travel_date := x} = bufOK d := by
  cases d
  rfl

theorem inv_process_main_menu (s : AppState) (input : Option String)
    (hop : s.current_operation = none) (h : ControllerInv s) :
    ControllerInv (process_main_menu s input).1 := by
  obtain ⟨ht, _⟩ := h
  simp only [process_main_menu, ticketMenuLines]
  repeat' split
  all_goals exact ⟨ht, by simp [hop]⟩

theorem inv_process_view (s : AppState) (input : Option String)
    (hop : s.current_operation = some Op.view) (h : ControllerInv s) :
    ControllerInv (process_view s input).1 := by
  obtain ⟨ht, _⟩ := h
  simp only [process_view, viewLookupFound, viewShowAll, viewNameSearch]
  repeat' split
  all_goals exact ⟨ht, by simp [hop]⟩

theorem ticketsOK_cancel_eq (tid : String) (ts upd : List Ticket) (b : Bool)
    (heq : cancel_ticket tid ts = (b, upd)) (h : TicketsOK ts) : TicketsOK upd := by
  have hc := ticketsOK_cancel tid ts h
  rw [heq] at hc
  exact hc

theorem ticketsOK_update_eq (sel : String) (t : Ticket) (ts upd : List Ticket)
    (o : Option Ticket)
    (hfind : ts.find? (fun x => x.id == sel) = some t)
    (heq : modify_ticket sel t.name t.age t.gender t.source t.destination ts = (o, upd))
    (h : TicketsOK ts) : TicketsOK upd := by
  have hc := ticketsOK_update_self sel t ts hfind h
  rw [heq] at hc
  exact hc

theorem inv_process_cancellation (s : AppState) (input : Option String)
    (hop : s.current_operation = some Op.cancel) (h : ControllerInv s) :
    ControllerInv (process_cancellation s input).1 := by
  obtain ⟨ht, _⟩ := h
  rcases hcs : s.cancel_step with _ | cs
  · simp only [process_cancellation, hcs]
    repeat' split
    all_goals try exact ⟨ht, by simp [hop]⟩
    all_goals exact ⟨ticketsOK_cancel_eq _ _ _ _ (by assumption) ht, by simp⟩
  · cases cs
    all_goals simp only [process_cancellation, hcs]
    all_goals repeat' split
    all_goals try exact ⟨ht, by simp [hop]⟩
    all_goals exact ⟨ticketsOK_cancel_eq _ _ _ _ (by assumption) ht, by simp⟩

set_option maxHeartbeats 2000000 in
theorem inv_process_modification (stations : List String) (s : AppState)
    (input : Option String)
    (hop : s.current_operation = some Op.modify) (h : ControllerInv s) :
    ControllerInv (process_modification stations s input).1 := by
  obtain ⟨ht, _⟩ := h
  rcases hms : s.modify_step with _ | ms
  · simp only [process_modification, hms, detailsOfTicket]
    repeat' split
    all_goals try exact ⟨ht, by simp [hop]⟩
    all_goals exact ⟨ticketsOK_update_eq _ _ _ _ _ (by assumption) (by assumption) ht, by simp⟩
  · cases ms
    all_goals simp only [process_modification, hms, detailsOfTicket]
    all_goals repeat' split
    all_goals try exact ⟨ht, by simp [hop]⟩
    all_goals exact ⟨ticketsOK_update_eq _ _ _ _ _ (by assumption) (by assumption) ht, by simp⟩

set_option maxHeartbeats 1000000 in
theorem inv_process_booking (stations : List String) (s : AppState)
    (input : Option String)
    (hop : s.current_operation = some Op.book) (h : ControllerInv s) :
    ControllerInv (process_booking stations s input).1 := by
  obtain ⟨ht, hbuf⟩ := h
  rcases hbs : s.booking_step with _ | bs
  · simp only [process_booking, hbs]
    exact ⟨ht, hbuf⟩
  · cases bs
    case name =>
      rcases input with _ | u
      all_goals simp only [process_booking, hbs]
      · exact ⟨ht, hbuf⟩
      · exact ⟨ht, by simp⟩
    case age =>
      rcases input with _ | u
      all_goals simp only [process_booking, hbs]
      · exact ⟨ht, hbuf⟩
      · rcases hx : extract_age u with _ | n
        all_goals simp only [hx]
        · exact ⟨ht, hbuf⟩
        · split_ifs with hr
          · exact ⟨ht, by simp⟩
          · exact ⟨ht, hbuf⟩
    case gender =>
      rcases input with _ | u
      all_goals simp only [process_booking, hbs]
      · exact ⟨ht, hbuf⟩
      · exact ⟨ht, by simp⟩
    case source =>
      rcases input with _ | u
      all_goals simp only [process_booking, hbs]
      · exact ⟨ht, hbuf⟩
      · rcases hr : resolveStation u stations with _ | m
        all_goals simp only [hr]
        · exact ⟨ht, hbuf⟩
        · exact ⟨ht, by simp⟩
    case destination =>
      rcases input with _ | u
      all_goals simp only [process_booking, hbs]
      · exact ⟨ht, hbuf⟩
      · rcases hr : resolveStation u stations with _ | m
        all_goals simp only [hr]
        · exact ⟨ht, hbuf⟩
        · cases hbeq : (s.ticket_details.source == some m)
          · simp only [hbeq, Bool.false_eq_true, if_false]
            exact ⟨ht, fun _ => bufOK_set_destination _ _ hbeq⟩
          · simp only [hbeq, if_true]
            exact ⟨ht, hbuf⟩
    case travel_date =>
      rcases input with _ | u
      all_goals simp only [process_booking, hbs, recordTravelDate]
      · exact ⟨ht, hbuf⟩
      · have hb : bufOK s.ticket_details = true := hbuf ⟨hop, Or.inl hbs⟩
        have hres : ∀ x : Option String,
            bufOK {s.ticket_details with travel_date := x} = true :=
          fun x => (bufOK_set_travel _ _).trans hb
        split_ifs with h1 h2
        · exact ⟨ht, fun _ => hres _⟩
        · exact ⟨ht, fun _ => hres _⟩
        · rcases hm : scanMonth (strLower u) with _ | mo <;>
            rcases hd : extract_day (strLower u) with _ | dy
          all_goals simp only [hm, hd]
          · exact ⟨ht, hbuf⟩
          · exact ⟨ht, hbuf⟩
          · exact ⟨ht, hbuf⟩
          · split_ifs with hv
            · exact ⟨ht, fun _ => hres _⟩
            · exact ⟨ht, hbuf⟩
    case confirm =>
      rcases input with _ | u
      all_goals simp only [process_booking, hbs]
      · exact ⟨ht, hbuf⟩
      · have hb : bufOK s.ticket_details = true := hbuf ⟨hop, Or.inr hbs⟩
        split_ifs with h1 h2
        · split
          · next nm ag g src dst hn ha hg hsc hdc =>
              refine ⟨?_, by simp⟩
              refine ticketsOK_append _ _ ht ?_
              have hne : src ≠ dst := by
                simpa [bufOK, hsc, hdc, bne_iff_ne] using hb
              exact hne
          · exact ⟨ht, hbuf⟩
        · exact ⟨ht, by simp⟩
        · exact ⟨ht, hbuf⟩

/-- C2: the source/destination invariant holds across every turn of the
controller: starting from any session whose stored tickets all have
distinct source and destination (and whose booking buffer, when the Book
flow is already past the destination check, cannot commit equal
stations), one full turn — any operation, any utterance or no input —
again yields a state satisfying the invariant; in particular a booking
cannot complete with equal stations and no Modify commit can store a
ticket whose source equals its destination. -/
theorem source_ne_destination_invariant :
    ∀ (stations : List String) (s : AppState) (input : Option String),
      ControllerInv s → ControllerInv (main_turn stations s input).1 := by
  intro stations s input h
  rcases hop : s.current_operation with _ | op
  · cases hss : s.show_success <;> rcases hct : s.current_ticket with _ | t <;>
      simp [main_turn, hss, hct, hop] <;>
      exact inv_process_main_menu _ input (by simp [hop]) ⟨h.1, by simp [hop]⟩
  · cases op
    case book =>
      cases hss : s.show_success <;> rcases hct : s.current_ticket with _ | t <;>
        simp [main_turn, hss, hct, hop] <;>
        exact inv_process_booking stations _ input (by simp [hop])
          ⟨h.1, fun hc => h.2 ⟨hop, hc.2⟩⟩
    case modify =>
      cases hss : s.show_success <;> rcases hct : s.current_ticket with _ | t <;>
        simp [main_turn, hss, hct, hop] <;>
        exact inv_process_modification stations _ input (by simp [hop]) ⟨h.1, by simp [hop]⟩
    case cancel =>
      cases hss : s.show_success <;> rcases hct : s.current_ticket with _ | t <;>
        simp [main_turn, hss, hct, hop] <;>
        exact inv_process_cancellation _ input (by simp [hop]) ⟨h.1, by simp [hop]⟩
    case view =>
      cases hss : s.show_success <;> rcases hct : s.current_ticket with _ | t <;>
        simp [main_turn, hss, hct, hop] <;>
        exact inv_process_view _ input (by simp [hop]) ⟨h.1, by simp [hop]⟩

/-- C2 witness: the theorem applied to the fresh session state with no
input. -/
theorem source_ne_destination_invariant_witness :
    ControllerInv (main_turn [] {} none).1 := by
  have hI : ControllerInv ({} : AppState) := by
    simp [ControllerInv, TicketsOK]
  exact source_ne_destination_invariant [] {} none hI
